import Mathlib

/-!
Shallow embedding of the ticket purchase flow of the robust-ticketing-system
repository (`src/routes/tickets.js`, `router.post('/purchase')`), together
with the SQLite schema constraints from `src/config/database.js`.

The relational store is modelled as lists of rows; SQL reads become list
filters/finds and SQL writes become list appends/maps.  The purchase route
first performs all of its reads (the event `SELECT` and the ticket-type
`SELECT ... COUNT(t.id) AS sold_count` join) and all of its validation, and
only then performs its writes (`INSERT INTO orders`, a sequence of
`INSERT INTO tickets`, `UPDATE orders`, `COMMIT`); the embedding mirrors this
by computing a validated plan (`purchasePlan`) whose write list is then
applied to the store (`applyWrites`).  The `faults` argument marks which of
the write statements throws (a store failure), modelling failure injection at
any write or at the commit; the surrounding `try/catch` with `ROLLBACK` is
`runPurchase`.
-/

deriving instance DecidableEq for Except

namespace Ticketing

/-- Row of the `events` table, restricted to the columns the purchase route
reads: `SELECT * FROM events WHERE id = $1 AND deleted_at IS NULL AND
status = 'published'` and the `start_date` comparison. -/
structure Event where
  id : Nat
  status : String
  start_date : Int
  deleted : Bool
deriving DecidableEq, Repr

/-- Row of the `ticket_types` table, restricted to the columns the purchase
route reads.  The capacity column is named `quantity` in the route
(`ticketType.quantity`); the SQLite schema in `database.js` calls it
`quantity_total`. -/
structure TicketType where
  id : Nat
  event_id : Nat
  name : String
  price : ℚ
  quantity : Nat
  max_per_order : Nat
  sale_start_date : Option Int
  sale_end_date : Option Int
  is_active : Bool
  deleted : Bool
deriving DecidableEq, Repr

/-- Row of the `tickets` table.  The route's `INSERT INTO tickets` supplies
`id, code, order_id, ticket_type_id, status, customer_*` (plus timestamps);
it supplies no value for the schema's `purchase_price` column, so that field
is an `Option` and the insert leaves it `none`. -/
structure Ticket where
  id : Nat
  code : String
  order_id : Nat
  ticket_type_id : Nat
  status : String
  customer_first_name : String
  customer_last_name : String
  customer_email : String
  customer_phone : Option String
  purchase_price : Option ℚ
deriving DecidableEq, Repr

/-- Row of the `orders` table, restricted to the columns the purchase route
writes. -/
structure Order where
  id : Nat
  user_id : Nat
  event_id : Nat
  total_amount : ℚ
  status : String
  customer_first_name : String
  customer_last_name : String
  customer_email : String
  customer_phone : Option String
deriving DecidableEq, Repr

/-- The relational store visible to the purchase route. -/
structure Store where
  events : List Event
  ticket_types : List TicketType
  tickets : List Ticket
  orders : List Order
deriving DecidableEq, Repr

/-- One entry of the request's `tickets` array: `{ticketTypeId, quantity}`. -/
structure LineItem where
  ticketTypeId : Nat
  quantity : Nat
deriving DecidableEq, Repr

/-- The request's `customerInfo` object. -/
structure CustomerInfo where
  firstName : String
  lastName : String
  email : String
  phone : Option String
deriving DecidableEq, Repr

/-- The body of `POST /api/tickets/purchase`. -/
structure PurchaseRequest where
  eventId : Nat
  tickets : List LineItem
  customerInfo : CustomerInfo
deriving DecidableEq, Repr

/-- One entry of the response's `tickets` array: the route returns
`{id, code, ticketType: {name, price}}` per created ticket. -/
structure RespTicket where
  id : Nat
  code : String
  typeName : String
  typePrice : ℚ
deriving DecidableEq, Repr

/-- The 201 response body of a successful purchase. -/
structure PurchaseResponse where
  orderId : Nat
  totalAmount : ℚ
  orderStatus : String
  ticketCount : Nat
  tickets : List RespTicket
deriving DecidableEq, Repr

/-- The distinct `throw new Error(...)` sites of the purchase route, plus a
store failure used for write/commit fault injection. -/
inductive PurchaseError where
  | eventNotFound : PurchaseError
  | eventAlreadyStarted : PurchaseError
  | ticketTypesNotFound : PurchaseError
  | notActive : String → PurchaseError
  | notYetOnSale : String → PurchaseError
  | saleEnded : String → PurchaseError
  | limitExceeded : String → Nat → PurchaseError
  | insufficientInventory : String → Int → PurchaseError
  | storeFailure : PurchaseError
deriving DecidableEq, Repr

/-- Alphabet of `generateTicketCode`:
`'ABCDEFGHIJKLMNOPQRSTUVWXYZ0123456789'`. -/
def ticketCodeChars : List Char :=
  "ABCDEFGHIJKLMNOPQRSTUVWXYZ0123456789".toList

/-- `generateTicketCode` draws 10 characters, each indexed by one value of
the random source (`Math.floor(Math.random() * chars.length)` yields an index
in `[0, 35]`, modelled as `Fin 36`); `off` is the position of this call's
first draw in the random stream. -/
def generateTicketCode (rng : Nat → Fin 36) (off : Nat) : String :=
  String.mk ((List.range 10).map (fun i => ticketCodeChars.getD ((rng (off + i)) : Nat) 'A'))

/-- Sold count of a ticket type: the route's
`COUNT(t.id) ... LEFT JOIN tickets t ON tt.id = t.ticket_type_id AND
t.status != 'cancelled'`. -/
def soldCount (σ : Store) (ttId : Nat) : Nat :=
  (σ.tickets.filter (fun t => t.ticket_type_id == ttId && !(t.status == "cancelled"))).length

/-- The ticket-type query of the route: `SELECT tt.*, COUNT(t.id) as
sold_count FROM ticket_types tt LEFT JOIN tickets ... WHERE tt.id = ANY($1)
AND tt.event_id = $2 AND tt.deleted_at IS NULL GROUP BY tt.id`: one row per
matching `ticket_types` row, paired with its sold count. -/
def fetchRows (σ : Store) (ids : List Nat) (eventId : Nat) : List (TicketType × Nat) :=
  (σ.ticket_types.filter
      (fun tt => ids.contains tt.id && tt.event_id == eventId && !tt.deleted)).map
    (fun tt => (tt, soldCount σ tt.id))

/-- Condition `ticketType.sale_start_date && new Date(...) > now`. -/
def saleNotStarted (now : Int) (tt : TicketType) : Bool :=
  match tt.sale_start_date with
  | some s => decide (now < s)
  | none => false

/-- Condition `ticketType.sale_end_date && new Date(...) < now`. -/
def saleHasEnded (now : Int) (tt : TicketType) : Bool :=
  match tt.sale_end_date with
  | some e => decide (e < now)
  | none => false

/-- Per-line validation of the route, in source order: `is_active`, sale
start, sale end, `max_per_order`, then availability
(`availableCount = ticketType.quantity - sold_count`;
`order.quantity > availableCount` rejects and reports `availableCount`). -/
def checkLine (now : Int) (tt : TicketType) (sold : Nat) (q : Nat) :
    Except PurchaseError Unit :=
  if tt.is_active = false then .error (.notActive tt.name)
  else if saleNotStarted now tt then .error (.notYetOnSale tt.name)
  else if saleHasEnded now tt then .error (.saleEnded tt.name)
  else if tt.max_per_order < q then .error (.limitExceeded tt.name tt.max_per_order)
  else
    if ((tt.quantity : Int) - (sold : Int)) < (q : Int) then
      .error (.insufficientInventory tt.name ((tt.quantity : Int) - (sold : Int)))
    else .ok ()

/-- The route's `for (const order of ticketOrders)` validation loop: find the
fetched row for the line's `ticketTypeId`, run `checkLine`, and accumulate
`totalAmount += ticketType.price * order.quantity`. -/
def validateOrders (now : Int) (rows : List (TicketType × Nat)) :
    List LineItem → ℚ → Except PurchaseError ℚ
  | [], total => .ok total
  | o :: rest, total =>
    match rows.find? (fun r => r.1.id == o.ticketTypeId) with
    | none => .error .ticketTypesNotFound
    | some r =>
      match checkLine now r.1 r.2 o.quantity with
      | .error e => .error e
      | .ok _ => validateOrders now rows rest (total + r.1.price * (o.quantity : ℚ))

/-- One `INSERT INTO tickets` row: status `'valid'`, the line's
`ticketTypeId`, the buyer's contact fields, and no `purchase_price` value. -/
def mkTicket (orderId ttId tid : Nat) (code : String) (ci : CustomerInfo) : Ticket :=
  { id := tid
    code := code
    order_id := orderId
    ticket_type_id := ttId
    status := "valid"
    customer_first_name := ci.firstName
    customer_last_name := ci.lastName
    customer_email := ci.email
    customer_phone := ci.phone
    purchase_price := none }

/-- The route's ticket-creation loop: for each line item, `quantity` fresh
tickets, each with a fresh uuid (modelled as `idBase + 1 + k`) and a fresh
code; the response pairs each ticket with the found row's name and price.
`k` counts tickets already created. -/
def buildCreated (orderId : Nat) (ci : CustomerInfo) (rng : Nat → Fin 36) (idBase : Nat)
    (rows : List (TicketType × Nat)) : List LineItem → Nat → List (Ticket × String × ℚ)
  | [], _ => []
  | o :: rest, k =>
    let name := ((rows.find? (fun r => r.1.id == o.ticketTypeId)).map (fun r => r.1.name)).getD ""
    let price := ((rows.find? (fun r => r.1.id == o.ticketTypeId)).map (fun r => r.1.price)).getD 0
    ((List.range o.quantity).map (fun i =>
      (mkTicket orderId o.ticketTypeId (idBase + 1 + k + i)
        (generateTicketCode rng (10 * (k + i))) ci, name, price)))
      ++ buildCreated orderId ci rng idBase rows rest (k + o.quantity)

/-- The `INSERT INTO orders` row: status `'pending'`, the computed
`totalAmount`, and the buyer's contact snapshot. -/
def newOrder (userId : Nat) (req : PurchaseRequest) (idBase : Nat) (totalAmount : ℚ) : Order :=
  { id := idBase
    user_id := userId
    event_id := req.eventId
    total_amount := totalAmount
    status := "pending"
    customer_first_name := req.customerInfo.firstName
    customer_last_name := req.customerInfo.lastName
    customer_email := req.customerInfo.email
    customer_phone := req.customerInfo.phone }

/-- The route's `UPDATE orders SET status = 'completed' ... WHERE id = $2`. -/
def completeOrder (orderId : Nat) (s : Store) : Store :=
  { s with orders :=
      s.orders.map (fun o => if o.id == orderId then { o with status := "completed" } else o) }

/-- The read/validation phase of the purchase route, returning the list of
writes the transaction will perform together with the response it will send.
All of the route's reads happen here, before any of its writes; the write
list is, in statement order, `INSERT INTO orders`, one `INSERT INTO tickets`
per created ticket, `UPDATE orders SET status = 'completed'`, and `COMMIT`
(a no-op on the store). -/
def purchasePlan (σ : Store) (now : Int) (userId : Nat) (req : PurchaseRequest)
    (idBase : Nat) (rng : Nat → Fin 36) :
    Except PurchaseError (List (Store → Store) × PurchaseResponse) :=
  match σ.events.find?
      (fun e => e.id == req.eventId && !e.deleted && e.status == "published") with
  | none => .error .eventNotFound
  | some event =>
    if event.start_date ≤ now then .error .eventAlreadyStarted
    else
      let ticketTypeIds := req.tickets.map (fun o => o.ticketTypeId)
      let rows := fetchRows σ ticketTypeIds req.eventId
      if rows.length ≠ ticketTypeIds.length then .error .ticketTypesNotFound
      else
        match validateOrders now rows req.tickets 0 with
        | .error e => .error e
        | .ok totalAmount =>
          let orderId := idBase
          let order : Order := newOrder userId req idBase totalAmount
          let created := buildCreated orderId req.customerInfo rng idBase rows req.tickets 0
          let writes : List (Store → Store) :=
            (fun s => { s with orders := s.orders ++ [order] })
              :: (created.map (fun c => fun s => { s with tickets := s.tickets ++ [c.1] })
                ++ [completeOrder orderId, fun s => s])
          .ok (writes,
            { orderId := orderId
              totalAmount := totalAmount
              orderStatus := "completed"
              ticketCount := created.length
              tickets := created.map
                (fun c => { id := c.1.id, code := c.1.code, typeName := c.2.1, typePrice := c.2.2 }) })

/-- Apply the transaction's writes in order; `faults wc = true` means the
`wc`-th write statement throws a store failure. -/
def applyWrites (faults : Nat → Bool) : Nat → Store → List (Store → Store) →
    Except PurchaseError Store
  | _, σ, [] => .ok σ
  | wc, σ, w :: ws =>
    if faults wc then .error .storeFailure else applyWrites faults (wc + 1) (w σ) ws

/-- A fault pattern under which every write succeeds. -/
def noFaults : Nat → Bool := fun _ => false

/-- One purchase transaction: validate, then perform the writes; any error
anywhere aborts with no committed result. -/
def purchase (σ : Store) (now : Int) (userId : Nat) (req : PurchaseRequest)
    (idBase : Nat) (rng : Nat → Fin 36) (faults : Nat → Bool) :
    Except PurchaseError (Store × PurchaseResponse) :=
  match purchasePlan σ now userId req idBase rng with
  | .error e => .error e
  | .ok (ws, resp) =>
    match applyWrites faults 0 σ ws with
    | .error e => .error e
    | .ok σ2 => .ok (σ2, resp)

/-- The route handler around the transaction: `BEGIN`, run the purchase, and
on any thrown error `ROLLBACK` (the store reverts to its state at `BEGIN`)
and report the error; on success the committed store and the 201 response. -/
def runPurchase (σ : Store) (now : Int) (userId : Nat) (req : PurchaseRequest)
    (idBase : Nat) (rng : Nat → Fin 36) (faults : Nat → Bool) :
    Store × Except PurchaseError PurchaseResponse :=
  match purchase σ now userId req idBase rng faults with
  | .ok (σ2, resp) => (σ2, .ok resp)
  | .error e => (σ, .error e)

/-- Two purchase transactions interleaved so that both perform their reads
(the event and ticket-type/sold-count `SELECT`s) before either commits: under
read-committed isolation each transaction's snapshot is then the initial
store, and the committed writes land in sequence.  The route opens no lock
and issues no conditional write, so nothing in the code forbids this
interleaving. -/
def concurrentPurchases (σ0 : Store) (now : Int)
    (u1 : Nat) (req1 : PurchaseRequest) (id1 : Nat)
    (u2 : Nat) (req2 : PurchaseRequest) (id2 : Nat) (rng : Nat → Fin 36) :
    Store × Except PurchaseError PurchaseResponse × Except PurchaseError PurchaseResponse :=
  match purchasePlan σ0 now u1 req1 id1 rng, purchasePlan σ0 now u2 req2 id2 rng with
  | .ok (ws1, r1), .ok (ws2, r2) =>
    ((ws1 ++ ws2).foldl (fun s w => w s) σ0, .ok r1, .ok r2)
  | .ok (ws1, r1), .error e2 => (ws1.foldl (fun s w => w s) σ0, .ok r1, .error e2)
  | .error e1, .ok (ws2, r2) => (ws2.foldl (fun s w => w s) σ0, .error e1, .ok r2)
  | .error e1, .error e2 => (σ0, .error e1, .error e2)

/-- Statuses admitted by the `tickets` table's `CHECK` constraint in
`src/config/database.js`:
`CHECK (status IN ('active', 'used', 'refunded', 'transferred'))`. -/
def allowedTicketStatuses : List String := ["active", "used", "refunded", "transferred"]

/-- Price stored on a ticket type in the store, looked up by id. -/
def priceOf (σ : Store) (tid : Nat) : ℚ :=
  match σ.ticket_types.find? (fun tt => tt.id == tid) with
  | some tt => tt.price
  | none => 0

/-- Grand total as the spec words it: the sum of `price * quantity` across
line items, using the price stored on the ticket type at validation time. -/
def specGrandTotal (σ : Store) : List LineItem → ℚ
  | [] => 0
  | o :: rest => priceOf σ o.ticketTypeId * (o.quantity : ℚ) + specGrandTotal σ rest

/-- Total quantity requested for one ticket type across the line items. -/
def linesQty : List LineItem → Nat → Nat
  | [], _ => 0
  | o :: rest, tid => (if o.ticketTypeId = tid then o.quantity else 0) + linesQty rest tid

theorem applyWrites_ok (faults : Nat → Bool) :
    ∀ (ws : List (Store → Store)) (wc : Nat) (σ σ2 : Store),
      applyWrites faults wc σ ws = .ok σ2 → σ2 = ws.foldl (fun s w => w s) σ := by
  intro ws
  induction ws with
  | nil => intro wc σ σ2 h; simp [applyWrites] at h; simp [h]
  | cons w ws ih =>
    intro wc σ σ2 h
    simp only [applyWrites] at h
    by_cases hf : faults wc
    · simp [hf] at h
    · simp [hf] at h
      simpa using ih (wc + 1) (w σ) σ2 h

theorem applyWrites_noFaults (ws : List (Store → Store)) (wc : Nat) (σ : Store) :
    applyWrites noFaults wc σ ws = .ok (ws.foldl (fun s w => w s) σ) := by
  induction ws generalizing wc σ with
  | nil => simp [applyWrites]
  | cons w ws ih => simp [applyWrites, noFaults, ih]

theorem foldl_ticket_appends (cs : List (Ticket × String × ℚ)) (σ : Store) :
    (cs.map (fun c => fun s => { s with tickets := s.tickets ++ [c.1] })).foldl
        (fun s w => w s) σ
      = { σ with tickets := σ.tickets ++ cs.map (fun c => c.1) } := by
  induction cs generalizing σ with
  | nil => simp
  | cons c cs ih => simp [ih]

/-- Success of `purchase` unpacked: the plan succeeded on the same response
and the final store is the plan's write list folded over the initial one. -/
theorem purchase_ok_elim {σ : Store} {now : Int} {userId : Nat} {req : PurchaseRequest}
    {idBase : Nat} {rng : Nat → Fin 36} {faults : Nat → Bool} {σ2 : Store}
    {resp : PurchaseResponse}
    (h : purchase σ now userId req idBase rng faults = .ok (σ2, resp)) :
    ∃ ws, purchasePlan σ now userId req idBase rng = .ok (ws, resp) ∧
      σ2 = ws.foldl (fun s w => w s) σ := by
  unfold purchase at h
  cases hp : purchasePlan σ now userId req idBase rng with
  | error e => simp [hp] at h
  | ok pr =>
    obtain ⟨ws, resp'⟩ := pr
    simp only [hp] at h
    cases ha : applyWrites faults 0 σ ws with
    | error e => simp [ha] at h
    | ok σ3 =>
      simp only [ha, Except.ok.injEq, Prod.mk.injEq] at h
      obtain ⟨h1, h2⟩ := h
      refine ⟨ws, ?_, by rw [← h1]; exact applyWrites_ok faults ws 0 σ σ3 ha⟩
      rw [h2]

/-- The `ticketTypeId` list of a request, as the route computes it. -/
def reqIds (req : PurchaseRequest) : List Nat := req.tickets.map (fun o => o.ticketTypeId)

/-- The rows the route's ticket-type query returns for a request. -/
def reqRows (σ : Store) (req : PurchaseRequest) : List (TicketType × Nat) :=
  fetchRows σ (reqIds req) req.eventId

/-- The tickets (with response name/price) a successful purchase of `req`
creates. -/
def reqCreated (σ : Store) (req : PurchaseRequest) (idBase : Nat) (rng : Nat → Fin 36) :
    List (Ticket × String × ℚ) :=
  buildCreated idBase req.customerInfo rng idBase (reqRows σ req) req.tickets 0

/-- The store a successful purchase commits: the order row (flipped to
`completed`), and one ticket row per created ticket. -/
def commitStore (σ : Store) (userId : Nat) (req : PurchaseRequest) (idBase : Nat)
    (rng : Nat → Fin 36) (totalAmount : ℚ) : Store :=
  { events := σ.events
    ticket_types := σ.ticket_types
    tickets := σ.tickets ++ (reqCreated σ req idBase rng).map (fun c => c.1)
    orders := (σ.orders ++ [newOrder userId req idBase totalAmount]).map
      (fun o => if o.id == idBase then { o with status := "completed" } else o) }

/-- Detailed characterization of a successful purchase: the event resolved
and lies in the future, the ticket-type fetch matched the id list, the
validation loop succeeded, and the committed store and response are as
planned. -/
theorem purchase_ok_strong {σ : Store} {now : Int} {userId : Nat} {req : PurchaseRequest}
    {idBase : Nat} {rng : Nat → Fin 36} {faults : Nat → Bool} {σ2 : Store}
    {resp : PurchaseResponse}
    (h : purchase σ now userId req idBase rng faults = .ok (σ2, resp)) :
    ∃ event totalAmount,
      σ.events.find? (fun e => e.id == req.eventId && !e.deleted && e.status == "published")
          = some event ∧
      now < event.start_date ∧
      (reqRows σ req).length = (reqIds req).length ∧
      validateOrders now (reqRows σ req) req.tickets 0 = .ok totalAmount ∧
      resp.orderId = idBase ∧ resp.totalAmount = totalAmount ∧
      resp.tickets = (reqCreated σ req idBase rng).map
        (fun c => { id := c.1.id, code := c.1.code, typeName := c.2.1, typePrice := c.2.2 }) ∧
      σ2 = commitStore σ userId req idBase rng totalAmount := by
  obtain ⟨ws, hplan, hfold⟩ := purchase_ok_elim h
  unfold purchasePlan at hplan
  cases hev : σ.events.find?
      (fun e => e.id == req.eventId && !e.deleted && e.status == "published") with
  | none => rw [hev] at hplan; simp at hplan
  | some event =>
    rw [hev] at hplan
    simp only at hplan
    by_cases hstart : event.start_date ≤ now
    · rw [if_pos hstart] at hplan; simp at hplan
    · rw [if_neg hstart] at hplan
      by_cases hlen : (fetchRows σ (req.tickets.map (fun o => o.ticketTypeId))
          req.eventId).length ≠ (req.tickets.map (fun o => o.ticketTypeId)).length
      · rw [if_pos hlen] at hplan; simp at hplan
      · rw [if_neg hlen] at hplan
        cases hval : validateOrders now
            (fetchRows σ (req.tickets.map (fun o => o.ticketTypeId)) req.eventId)
            req.tickets 0 with
        | error e => rw [hval] at hplan; simp at hplan
        | ok totalAmount =>
          rw [hval] at hplan
          simp only [Except.ok.injEq, Prod.mk.injEq] at hplan
          obtain ⟨hws, hresp⟩ := hplan
          refine ⟨event, totalAmount, rfl, by omega, ?_, ?_, ?_, ?_, ?_, ?_⟩
          · simpa [reqRows, reqIds] using (not_ne_iff.mp hlen)
          · simpa [reqRows, reqIds] using hval
          · rw [← hresp]
          · rw [← hresp]
          · rw [← hresp]; rfl
          · rw [hfold, ← hws]
            simp only [List.foldl_cons, List.foldl_append]
            rw [foldl_ticket_appends]
            simp [commitStore, completeOrder, reqCreated, reqRows, reqIds]

/-- A passed per-line check bounds the quantity by `max_per_order` and by the
remaining capacity. -/
theorem checkLine_ok_bounds {now : Int} {tt : TicketType} {sold q : Nat}
    (h : checkLine now tt sold q = .ok ()) :
    q ≤ tt.max_per_order ∧ (sold : Int) + (q : Int) ≤ (tt.quantity : Int) := by
  unfold checkLine at h
  split_ifs at h with h1 h2 h3 h4 h5
  omega

/-- Every line of a successful validation loop found its fetched row and
passed its per-line check. -/
theorem validateOrders_ok_line {now : Int} {rows : List (TicketType × Nat)} :
    ∀ {lines : List LineItem} {acc T : ℚ}, validateOrders now rows lines acc = .ok T →
      ∀ o ∈ lines, ∃ r ∈ rows, r.1.id = o.ticketTypeId ∧
        checkLine now r.1 r.2 o.quantity = .ok () := by
  intro lines
  induction lines with
  | nil => intro acc T _ o ho; simp at ho
  | cons o0 rest ih =>
    intro acc T h o ho
    unfold validateOrders at h
    cases hfind : rows.find? (fun r => r.1.id == o0.ticketTypeId) with
    | none => rw [hfind] at h; simp at h
    | some r =>
      rw [hfind] at h
      simp only at h
      cases hchk : checkLine now r.1 r.2 o0.quantity with
      | error e => rw [hchk] at h; simp at h
      | ok u =>
        rw [hchk] at h
        rcases List.mem_cons.mp ho with rfl | hmem
        · refine ⟨r, List.mem_of_find?_eq_some hfind, ?_, by cases u; exact hchk⟩
          have := List.find?_some hfind
          simpa using this
        · exact ih h o hmem

/-- Rows returned by the ticket-type query: the type is a stored row, its
paired count is its current sold count, and its id was requested. -/
theorem mem_fetchRows {σ : Store} {ids : List Nat} {eid : Nat} {r : TicketType × Nat}
    (h : r ∈ fetchRows σ ids eid) :
    r.1 ∈ σ.ticket_types ∧ r.2 = soldCount σ r.1.id ∧ r.1.id ∈ ids := by
  unfold fetchRows at h
  obtain ⟨tt, htt, rfl⟩ := List.mem_map.mp h
  obtain ⟨hmem, hpred⟩ := List.mem_filter.mp htt
  simp only [Bool.and_eq_true] at hpred
  refine ⟨hmem, rfl, ?_⟩
  have := hpred.1.1
  simpa using this

/-- Ids of distinct stored rows are pairwise distinct, so two stored ticket
types with the same id coincide. -/
theorem tt_eq_of_id_eq {σ : Store} (hwf : (σ.ticket_types.map TicketType.id).Nodup)
    {a b : TicketType} (ha : a ∈ σ.ticket_types) (hb : b ∈ σ.ticket_types)
    (hid : a.id = b.id) : a = b :=
  List.inj_on_of_nodup_map hwf ha hb hid

/-- If the fetch returned as many rows as the request has line items, the
requested id list has no duplicates (each stored row is fetched once). -/
theorem ids_nodup_of_length_eq {σ : Store} {ids : List Nat} {eid : Nat}
    (hwf : (σ.ticket_types.map TicketType.id).Nodup)
    (hlen : (fetchRows σ ids eid).length = ids.length) : ids.Nodup := by
  set S := σ.ticket_types.filter
    (fun tt => ids.contains tt.id && tt.event_id == eid && !tt.deleted) with hS
  have hlenS : (fetchRows σ ids eid).length = S.length := by
    simp [fetchRows, hS]
  have hndS : (S.map TicketType.id).Nodup :=
    ((List.filter_sublist _).map TicketType.id).nodup hwf
  have hsub : S.map TicketType.id ⊆ ids.dedup := by
    intro x hx
    obtain ⟨tt, htt, rfl⟩ := List.mem_map.mp hx
    obtain ⟨_, hpred⟩ := List.mem_filter.mp htt
    simp only [Bool.and_eq_true] at hpred
    exact List.mem_dedup.mpr (by simpa using hpred.1.1)
  have hle : S.length ≤ ids.dedup.length := by
    simpa using (List.subperm_of_subset hndS hsub).length_le
  by_contra hnod
  have hne : ids.dedup ≠ ids := fun he => hnod (he ▸ List.nodup_dedup ids)
  have hlt : ids.dedup.length < ids.length := by
    rcases Nat.lt_or_ge ids.dedup.length ids.length with h | h
    · exact h
    · exact absurd ((ids.dedup_sublist).eq_of_length (Nat.le_antisymm
        (ids.dedup_sublist).length_le h)) hne
  omega

theorem linesQty_eq_zero {lines : List LineItem} {tid : Nat}
    (h : tid ∉ lines.map (fun o => o.ticketTypeId)) : linesQty lines tid = 0 := by
  induction lines with
  | nil => rfl
  | cons o rest ih =>
    simp only [List.map_cons, List.mem_cons, not_or] at h
    unfold linesQty
    rw [if_neg (fun he => h.1 he.symm), ih h.2]

/-- With no duplicated ids, the quantity requested for a type is either zero
or the quantity of its unique line item. -/
theorem linesQty_cases {lines : List LineItem}
    (hnd : (lines.map (fun o => o.ticketTypeId)).Nodup) (tid : Nat) :
    linesQty lines tid = 0 ∨
      ∃ o ∈ lines, o.ticketTypeId = tid ∧ linesQty lines tid = o.quantity := by
  induction lines with
  | nil => exact Or.inl rfl
  | cons o rest ih =>
    rw [List.map_cons, List.nodup_cons] at hnd
    by_cases hid : o.ticketTypeId = tid
    · right
      refine ⟨o, List.mem_cons_self o rest, hid, ?_⟩
      have : linesQty rest tid = 0 := linesQty_eq_zero (hid ▸ hnd.1)
      simp [linesQty, hid, this]
    · rcases ih hnd.2 with h0 | ⟨o', ho', hid', hq⟩
      · exact Or.inl (by simp [linesQty, hid, h0])
      · exact Or.inr ⟨o', List.mem_cons_of_mem o ho', hid',
          by simp [linesQty, hid, hq]⟩

theorem length_filter_map_of_all {α β : Type} (p : β → Bool) (f : α → β) (l : List α)
    (h : ∀ a ∈ l, p (f a) = true) : ((l.map f).filter p).length = l.length := by
  induction l with
  | nil => rfl
  | cons a l ih =>
    simp only [List.map_cons, List.filter_cons, h a (List.mem_cons_self a l),
      if_pos, List.length_cons]
    rw [ih (fun b hb => h b (List.mem_cons_of_mem a hb))]

theorem length_filter_map_of_none {α β : Type} (p : β → Bool) (f : α → β) (l : List α)
    (h : ∀ a ∈ l, p (f a) = false) : ((l.map f).filter p).length = 0 := by
  induction l with
  | nil => rfl
  | cons a l ih =>
    simp only [List.map_cons, List.filter_cons, h a (List.mem_cons_self a l)]
    exact ih (fun b hb => h b (List.mem_cons_of_mem a hb))

/-- The ticket rows of the creation loop, with the response decoration
projected away. -/
def plannedTickets (orderId : Nat) (ci : CustomerInfo) (rng : Nat → Fin 36) (idBase : Nat) :
    List LineItem → Nat → List Ticket
  | [], _ => []
  | o :: rest, k =>
    ((List.range o.quantity).map (fun i =>
      mkTicket orderId o.ticketTypeId (idBase + 1 + k + i)
        (generateTicketCode rng (10 * (k + i))) ci))
      ++ plannedTickets orderId ci rng idBase rest (k + o.quantity)

theorem buildCreated_map_fst (orderId : Nat) (ci : CustomerInfo) (rng : Nat → Fin 36)
    (idBase : Nat) (rows : List (TicketType × Nat)) :
    ∀ (lines : List LineItem) (k : Nat),
      (buildCreated orderId ci rng idBase rows lines k).map (fun c => c.1)
        = plannedTickets orderId ci rng idBase lines k := by
  intro lines
  induction lines with
  | nil => intro k; rfl
  | cons o rest ih =>
    intro k
    simp [buildCreated, plannedTickets, List.map_map, Function.comp, ih]

/-- Tickets created for the request, counted per ticket type: the created
rows carry the line's `ticketTypeId` and status `'valid'`, never
`'cancelled'`. -/
theorem plannedTickets_count (orderId : Nat) (ci : CustomerInfo) (rng : Nat → Fin 36)
    (idBase : Nat) (tid : Nat) :
    ∀ (lines : List LineItem) (k : Nat),
      ((plannedTickets orderId ci rng idBase lines k).filter
          (fun t => t.ticket_type_id == tid && !(t.status == "cancelled"))).length
        = linesQty lines tid := by
  intro lines
  induction lines with
  | nil => intro k; rfl
  | cons o rest ih =>
    intro k
    simp only [plannedTickets, List.filter_append, List.length_append, linesQty,
      ih (k + o.quantity)]
    congr 1
    by_cases hid : o.ticketTypeId = tid
    · rw [if_pos hid]
      rw [length_filter_map_of_all _ _ _ (fun i _ => by simp [mkTicket, hid])]
      exact List.length_range o.quantity
    · rw [if_neg hid]
      exact length_filter_map_of_none _ _ _ (fun i _ => by simp [mkTicket, hid])

/-- Sold counts after commit: the initial sold count plus the quantity the
request bought of that type. -/
theorem soldCount_commitStore (σ : Store) (userId : Nat) (req : PurchaseRequest)
    (idBase : Nat) (rng : Nat → Fin 36) (totalAmount : ℚ) (tid : Nat) :
    soldCount (commitStore σ userId req idBase rng totalAmount) tid
      = soldCount σ tid + linesQty req.tickets tid := by
  unfold commitStore soldCount
  simp only [List.filter_append, List.length_append]
  congr 1
  rw [reqCreated, buildCreated_map_fst]
  exact plannedTickets_count idBase req.customerInfo rng idBase tid req.tickets 0

/-- C2: for every ticket type, the count of ticket rows referencing it with
status other than `cancelled` stays at most the type's capacity
(`quantity_total`): every sequentially executed purchase — through the
route's handler, with any pattern of write/commit faults — preserves the
invariant, because a purchase succeeds only when each requested quantity is
at most the capacity minus the current non-cancelled sold count. -/
theorem c2_capacity_invariant_preserved
    (σ : Store) (now : Int) (userId : Nat) (req : PurchaseRequest)
    (idBase : Nat) (rng : Nat → Fin 36) (faults : Nat → Bool)
    (hwf : (σ.ticket_types.map TicketType.id).Nodup)
    (hinv : ∀ tt ∈ σ.ticket_types, soldCount σ tt.id ≤ tt.quantity) :
    ∀ tt ∈ (runPurchase σ now userId req idBase rng faults).1.ticket_types,
      soldCount (runPurchase σ now userId req idBase rng faults).1 tt.id ≤ tt.quantity := by
  unfold runPurchase
  cases hp : purchase σ now userId req idBase rng faults with
  | error e => simpa using hinv
  | ok pr =>
    obtain ⟨σ2, resp⟩ := pr
    simp only
    obtain ⟨event, totalAmount, _, _, hlen, hval, _, _, _, hσ2⟩ := purchase_ok_strong hp
    subst hσ2
    intro tt htt
    have httσ : tt ∈ σ.ticket_types := by simpa [commitStore] using htt
    rw [soldCount_commitStore]
    have hnd : (reqIds req).Nodup :=
      ids_nodup_of_length_eq hwf (by simpa [reqRows, reqIds] using hlen)
    rcases linesQty_cases (by simpa [reqIds] using hnd) tt.id with h0 | ⟨o, ho, hid, hq⟩
    · rw [h0]
      simpa using hinv tt httσ
    · rw [hq]
      obtain ⟨r, hr, hrid, hchk⟩ := validateOrders_ok_line hval o ho
      obtain ⟨hrmem, hrsold, _⟩ := mem_fetchRows (by simpa [reqRows] using hr)
      have hrt : r.1 = tt := tt_eq_of_id_eq hwf hrmem httσ (by rw [hrid, hid])
      have hb := (checkLine_ok_bounds hchk).2
      have hsold : r.2 = soldCount σ tt.id := by rw [hrsold, hrid, hid]
      rw [hrt, hsold] at hb
      omega

theorem plannedTickets_fields {orderId : Nat} {ci : CustomerInfo} {rng : Nat → Fin 36}
    {idBase : Nat} {t : Ticket} :
    ∀ {lines : List LineItem} {k : Nat}, t ∈ plannedTickets orderId ci rng idBase lines k →
      t.status = "valid" ∧ t.purchase_price = none ∧
        ∃ off, t.code = generateTicketCode rng off := by
  intro lines
  induction lines with
  | nil => intro k h; simp [plannedTickets] at h
  | cons o rest ih =>
    intro k h
    simp only [plannedTickets] at h
    rcases List.mem_append.mp h with hl | hr
    · obtain ⟨i, _, rfl⟩ := List.mem_map.mp hl
      exact ⟨rfl, rfl, 10 * (k + i), rfl⟩
    · exact ih hr

theorem ticketCodeChars_getD_mem : ∀ k, k < 36 → ticketCodeChars.getD k 'A' ∈ ticketCodeChars := by
  decide

theorem generateTicketCode_format (rng : Nat → Fin 36) (off : Nat) :
    (generateTicketCode rng off).toList.length = 10 ∧
      ∀ c ∈ (generateTicketCode rng off).toList, c ∈ ticketCodeChars := by
  have hlist : (generateTicketCode rng off).toList
      = (List.range 10).map (fun i => ticketCodeChars.getD ((rng (off + i)) : Nat) 'A') := rfl
  constructor
  · rw [hlist]; simp
  · intro c hc
    rw [hlist] at hc
    obtain ⟨i, _, rfl⟩ := List.mem_map.mp hc
    exact ticketCodeChars_getD_mem _ (rng (off + i)).isLt

/-- Concrete fixtures used by the witnesses and counterexamples: a published
future event, a buyer, and a constant random source. -/
def evA : Event := { id := 1, status := "published", start_date := 100, deleted := false }

def ciA : CustomerInfo :=
  { firstName := "Ada", lastName := "L", email := "ada@example.com", phone := none }

def rngA : Nat → Fin 36 := fun _ => ⟨0, by omega⟩

/-- A ticket type with capacity 5 and per-order limit 3, no sale window. -/
def ttGA : TicketType :=
  { id := 2, event_id := 1, name := "GA", price := 20, quantity := 5, max_per_order := 3,
    sale_start_date := none, sale_end_date := none, is_active := true, deleted := false }

def storeGA : Store := { events := [evA], ticket_types := [ttGA], tickets := [], orders := [] }

/-- A request for 2 units of type 2. -/
def reqTwo : PurchaseRequest :=
  { eventId := 1, tickets := [{ ticketTypeId := 2, quantity := 2 }], customerInfo := ciA }

/-- The store after the concrete purchase of `reqTwo` against `storeGA`. -/
def commitGA : Store := (runPurchase storeGA 50 7 reqTwo 100 rngA noFaults).1

/-- The response of that concrete purchase. -/
def respGA : PurchaseResponse :=
  { orderId := 100, totalAmount := 40, orderStatus := "completed", ticketCount := 2,
    tickets := [{ id := 101, code := "AAAAAAAAAA", typeName := "GA", typePrice := 20 },
                { id := 102, code := "AAAAAAAAAA", typeName := "GA", typePrice := 20 }] }

/-- A ticket type with a single remaining unit. -/
def ttLast : TicketType :=
  { id := 2, event_id := 1, name := "Last", price := 20, quantity := 1, max_per_order := 5,
    sale_start_date := none, sale_end_date := none, is_active := true, deleted := false }

def storeLast : Store := { events := [evA], ticket_types := [ttLast], tickets := [], orders := [] }

/-- A request for 1 unit of type 2. -/
def reqOne : PurchaseRequest :=
  { eventId := 1, tickets := [{ ticketTypeId := 2, quantity := 1 }], customerInfo := ciA }

/-- A fault pattern failing exactly the `COMMIT` of a 2-ticket purchase
(write 0 is the order insert, writes 1-2 the ticket inserts, write 3 the
order update, write 4 the commit). -/
def commitFault : Nat → Bool := fun wc => wc == 4

/-- C1: the purchase route relies on an unlocked read-then-write gap: its
inventory read (`SELECT ... COUNT(t.id) AS sold_count`) is not locked or
re-checked against its ticket inserts, so in the interleaving where two
concurrent 1-unit purchases of a type with `quantity_total = 1` both read
before either commits, both succeed and 2 non-cancelled tickets persist —
instead of the claimed exactly 1 success and 1 InsufficientInventory
rejection. -/
theorem c1_oversell_under_concurrency :
    ttLast.quantity = 1 ∧
    (concurrentPurchases storeLast 50 7 reqOne 100 8 reqOne 200 rngA).2.1.isOk = true ∧
    (concurrentPurchases storeLast 50 7 reqOne 100 8 reqOne 200 rngA).2.2.isOk = true ∧
    soldCount (concurrentPurchases storeLast 50 7 reqOne 100 8 reqOne 200 rngA).1 ttLast.id
      = 2 := by
  decide

/-- C3: a purchase attempt that fails at any step after `BEGIN` — any
validation failure, or a store fault injected at the order insert, any
ticket insert, the order update, or the commit — leaves the store exactly as
it was: the handler's `ROLLBACK` discards every write of the attempt. -/
theorem c3_failed_purchase_rolls_back
    (σ : Store) (now : Int) (userId : Nat) (req : PurchaseRequest)
    (idBase : Nat) (rng : Nat → Fin 36) (faults : Nat → Bool) (e : PurchaseError)
    (h : (runPurchase σ now userId req idBase rng faults).2 = .error e) :
    (runPurchase σ now userId req idBase rng faults).1 = σ := by
  unfold runPurchase at h ⊢
  cases hp : purchase σ now userId req idBase rng faults with
  | error e2 => rfl
  | ok pr =>
    obtain ⟨σ2, resp⟩ := pr
    rw [hp] at h
    simp at h

/-- Witness for C3: a commit-failure attempt leaves the store unchanged. -/
theorem c3_witness : (runPurchase storeGA 50 7 reqTwo 100 rngA commitFault).1 = storeGA :=
  c3_failed_purchase_rolls_back storeGA 50 7 reqTwo 100 rngA commitFault .storeFailure
    (by decide)

/-- C4: no ticket row created by a purchase carries any `purchase_price`
value — the route's `INSERT INTO tickets` column list omits the column
entirely (the schema's `purchase_price REAL NOT NULL`), so the claimed
equality with the in-transaction ticket-type price fails for every created
ticket. -/
theorem c4_purchase_price_never_recorded
    (σ : Store) (now : Int) (userId : Nat) (req : PurchaseRequest)
    (idBase : Nat) (rng : Nat → Fin 36) (faults : Nat → Bool)
    (σ2 : Store) (resp : PurchaseResponse)
    (h : purchase σ now userId req idBase rng faults = .ok (σ2, resp)) :
    ∀ t ∈ σ2.tickets, t ∈ σ.tickets ∨ t.purchase_price = none := by
  obtain ⟨event, totalAmount, _, _, _, _, _, _, _, hσ2⟩ := purchase_ok_strong h
  subst hσ2
  intro t ht
  simp only [commitStore] at ht
  rcases List.mem_append.mp ht with hl | hr
  · exact Or.inl hl
  · rw [reqCreated, buildCreated_map_fst] at hr
    exact Or.inr (plannedTickets_fields hr).2.1

unseal Rat.mul Rat.add in
/-- Witness for C4: the two tickets of the concrete purchase persist with no
`purchase_price`, although their type's price is 20. -/
theorem c4_witness :
    (∀ t ∈ commitGA.tickets, t ∈ storeGA.tickets ∨ t.purchase_price = none) ∧
    ttGA.price = 20 ∧ commitGA.tickets.length = 2 :=
  ⟨c4_purchase_price_never_recorded storeGA 50 7 reqTwo 100 rngA noFaults commitGA respGA
      (by decide),
    by decide, by decide⟩

/-- C5: every ticket row the purchase route creates has status `'valid'`,
which is not the claimed `'active'` and is outside the set admitted by the
schema's `CHECK (status IN ('active', 'used', 'refunded', 'transferred'))`. -/
theorem c5_status_valid_not_active
    (σ : Store) (now : Int) (userId : Nat) (req : PurchaseRequest)
    (idBase : Nat) (rng : Nat → Fin 36) (faults : Nat → Bool)
    (σ2 : Store) (resp : PurchaseResponse)
    (h : purchase σ now userId req idBase rng faults = .ok (σ2, resp)) :
    ∀ t ∈ σ2.tickets, t ∈ σ.tickets ∨
      (t.status = "valid" ∧ t.status ≠ "active" ∧ t.status ∉ allowedTicketStatuses) := by
  obtain ⟨event, totalAmount, _, _, _, _, _, _, _, hσ2⟩ := purchase_ok_strong h
  subst hσ2
  intro t ht
  simp only [commitStore] at ht
  rcases List.mem_append.mp ht with hl | hr
  · exact Or.inl hl
  · rw [reqCreated, buildCreated_map_fst] at hr
    have hs := (plannedTickets_fields hr).1
    exact Or.inr ⟨hs, by rw [hs]; decide, by rw [hs]; decide⟩

unseal Rat.mul Rat.add in
/-- Witness for C5: the concrete purchase persists two tickets, both with
status `'valid'`. -/
theorem c5_witness :
    (∀ t ∈ commitGA.tickets, t ∈ storeGA.tickets ∨
      (t.status = "valid" ∧ t.status ≠ "active" ∧ t.status ∉ allowedTicketStatuses)) ∧
    commitGA.tickets.length = 2 :=
  ⟨c5_status_valid_not_active storeGA 50 7 reqTwo 100 rngA noFaults commitGA respGA
      (by decide),
    by decide⟩

/-- Witness for C2 at a concrete store, purchase, and ticket type. -/
theorem c2_witness :
    soldCount (runPurchase storeGA 50 7 reqTwo 100 rngA noFaults).1 ttGA.id ≤ ttGA.quantity :=
  c2_capacity_invariant_preserved storeGA 50 7 reqTwo 100 rngA noFaults (by decide) (by decide)
    ttGA (by decide)

theorem priceOf_mem {σ : Store} (hwf : (σ.ticket_types.map TicketType.id).Nodup)
    {tt : TicketType} (htt : tt ∈ σ.ticket_types) : priceOf σ tt.id = tt.price := by
  unfold priceOf
  cases hfind : σ.ticket_types.find? (fun x => x.id == tt.id) with
  | none =>
    have := List.find?_eq_none.mp hfind tt htt
    simp at this
  | some tt2 =>
    have h1 := List.find?_some hfind
    have h2 := List.mem_of_find?_eq_some hfind
    have : tt2 = tt := tt_eq_of_id_eq hwf h2 htt (by simpa using h1)
    rw [this]

/-- The accumulated total of a successful validation loop is the spec's
grand total: each line contributes the stored price of its type times its
quantity. -/
theorem validateOrders_total {σ : Store} (hwf : (σ.ticket_types.map TicketType.id).Nodup)
    {now : Int} {rows : List (TicketType × Nat)}
    (hrows : ∀ r ∈ rows, r.1 ∈ σ.ticket_types) :
    ∀ {lines : List LineItem} {acc T : ℚ},
      validateOrders now rows lines acc = .ok T → T = acc + specGrandTotal σ lines := by
  intro lines
  induction lines with
  | nil =>
    intro acc T h
    simp only [validateOrders, Except.ok.injEq] at h
    simp [specGrandTotal, ← h]
  | cons o rest ih =>
    intro acc T h
    unfold validateOrders at h
    cases hfind : rows.find? (fun r => r.1.id == o.ticketTypeId) with
    | none => rw [hfind] at h; simp at h
    | some r =>
      rw [hfind] at h
      simp only at h
      cases hchk : checkLine now r.1 r.2 o.quantity with
      | error e => rw [hchk] at h; simp at h
      | ok u =>
        rw [hchk] at h
        have hT := ih h
        have hpr : r.1.price = priceOf σ o.ticketTypeId := by
          have hid : r.1.id = o.ticketTypeId := by simpa using List.find?_some hfind
          rw [← hid]
          exact (priceOf_mem hwf (hrows r (List.mem_of_find?_eq_some hfind))).symm
        rw [hT, hpr, specGrandTotal]
        ring

/-- C6: the grand total of an admissible purchase is the sum over line items
of the stored price of the line's ticket type times its requested quantity,
and that total is both returned to the caller and recorded as the created
order's `total_amount`. -/
theorem c6_total_is_price_times_quantity
    (σ : Store) (now : Int) (userId : Nat) (req : PurchaseRequest)
    (idBase : Nat) (rng : Nat → Fin 36) (faults : Nat → Bool)
    (σ2 : Store) (resp : PurchaseResponse)
    (hwf : (σ.ticket_types.map TicketType.id).Nodup)
    (h : purchase σ now userId req idBase rng faults = .ok (σ2, resp)) :
    resp.totalAmount = specGrandTotal σ req.tickets ∧
    ∃ o ∈ σ2.orders, o.id = resp.orderId ∧ o.total_amount = resp.totalAmount ∧
      o.status = "completed" := by
  obtain ⟨event, totalAmount, _, _, hlen, hval, hoid, htot, _, hσ2⟩ := purchase_ok_strong h
  have hrows : ∀ r ∈ reqRows σ req, r.1 ∈ σ.ticket_types := fun r hr =>
    (mem_fetchRows (by simpa [reqRows] using hr)).1
  have hT : totalAmount = 0 + specGrandTotal σ req.tickets := validateOrders_total hwf hrows hval
  constructor
  · rw [htot, hT]; ring
  · refine ⟨{ newOrder userId req idBase totalAmount with status := "completed" }, ?_, ?_, ?_, rfl⟩
    · rw [hσ2]
      simp only [commitStore]
      refine List.mem_map.mpr ⟨newOrder userId req idBase totalAmount,
        List.mem_append_right _ (by simp), ?_⟩
      simp [newOrder]
    · simp [newOrder, hoid]
    · simp [newOrder, htot]

unseal Rat.mul Rat.add in
/-- Witness for C6 at the concrete purchase: total 40 = 20 * 2. -/
theorem c6_witness :
    respGA.totalAmount = specGrandTotal storeGA reqTwo.tickets ∧
    ∃ o ∈ commitGA.orders, o.id = respGA.orderId ∧ o.total_amount = respGA.totalAmount ∧
      o.status = "completed" :=
  c6_total_is_price_times_quantity storeGA 50 7 reqTwo 100 rngA noFaults commitGA respGA
    (by decide) (by decide)

/-- C7 (amended): every code of a ticket created by a purchase is a freshly
generated 10-character string over the alphabet `A-Z0-9`; however the route
performs no collision check against existing codes and no regeneration retry
(see the counterexample for the uniqueness part of the original claim). -/
theorem c7_codes_ten_chars_from_alphabet
    (σ : Store) (now : Int) (userId : Nat) (req : PurchaseRequest)
    (idBase : Nat) (rng : Nat → Fin 36) (faults : Nat → Bool)
    (σ2 : Store) (resp : PurchaseResponse)
    (h : purchase σ now userId req idBase rng faults = .ok (σ2, resp)) :
    ∀ t ∈ σ2.tickets, t ∈ σ.tickets ∨
      (t.code.toList.length = 10 ∧ ∀ c ∈ t.code.toList, c ∈ ticketCodeChars) := by
  obtain ⟨event, totalAmount, _, _, _, _, _, _, _, hσ2⟩ := purchase_ok_strong h
  subst hσ2
  intro t ht
  simp only [commitStore] at ht
  rcases List.mem_append.mp ht with hl | hr
  · exact Or.inl hl
  · rw [reqCreated, buildCreated_map_fst] at hr
    obtain ⟨off, hcode⟩ := (plannedTickets_fields hr).2.2
    rw [hcode]
    exact Or.inr (generateTicketCode_format rng off)

/-- The first ticket row the concrete purchase persists. -/
def ticketA : Ticket :=
  { id := 101, code := "AAAAAAAAAA", order_id := 100, ticket_type_id := 2, status := "valid",
    customer_first_name := "Ada", customer_last_name := "L",
    customer_email := "ada@example.com", customer_phone := none, purchase_price := none }

unseal Rat.mul Rat.add in
/-- Witness for C7's amended format statement at a concrete persisted
ticket. -/
theorem c7_witness :
    ticketA ∈ storeGA.tickets ∨
      (ticketA.code.toList.length = 10 ∧ ∀ c ∈ ticketA.code.toList, c ∈ ticketCodeChars) :=
  c7_codes_ten_chars_from_alphabet storeGA 50 7 reqTwo 100 rngA noFaults commitGA respGA
    (by decide) ticketA (by decide)

/-- Counterexample to C7 as stated: with a random source that repeats, a
single purchase persists two distinct tickets (distinct ids) sharing the
same code — nothing in the route collision-checks or retries, so persisted
codes need not be unique. -/
theorem c7_counterexample :
    (commitGA.tickets.map Ticket.id).Nodup ∧
    ¬ (commitGA.tickets.map Ticket.code).Nodup ∧
    commitGA.tickets.length = 2 := by
  decide

/-- A ticket type whose sale ended in the past (sale_end 10 < now 50), with
plentiful inventory. -/
def ttEnded : TicketType :=
  { id := 2, event_id := 1, name := "Closed", price := 20, quantity := 100, max_per_order := 5,
    sale_start_date := none, sale_end_date := some 10, is_active := true, deleted := false }

def storeEnded : Store :=
  { events := [evA], ticket_types := [ttEnded], tickets := [], orders := [] }

/-- A ticket type with a misconfigured window: sale_start in the future and
sale_end in the past, active, plentiful inventory. -/
def ttMis : TicketType :=
  { id := 2, event_id := 1, name := "VIP", price := 20, quantity := 100, max_per_order := 5,
    sale_start_date := some 200, sale_end_date := some 10, is_active := true, deleted := false }

def storeMis : Store := { events := [evA], ticket_types := [ttMis], tickets := [], orders := [] }

/-- A request naming the same ticket type in two line items. -/
def reqDup : PurchaseRequest :=
  { eventId := 1,
    tickets := [{ ticketTypeId := 2, quantity := 1 }, { ticketTypeId := 2, quantity := 1 }],
    customerInfo := ciA }

/-- C8 (amended): for a fetched, active ticket type whose sale has not yet
to start and whose `sale_end` is set and lies in the past, a single-line
purchase attempt returns `SaleEnded` whatever the requested quantity and
whatever the sold count — the sale-window check is decided before the
per-order-limit and inventory checks. -/
theorem c8_sale_ended_before_inventory
    (σ : Store) (now : Int) (userId idBase eid : Nat) (rng : Nat → Fin 36)
    (ci : CustomerInfo) (faults : Nat → Bool) (tt : TicketType) (sc q : Nat)
    (ev : Event) (e : Int)
    (h1 : σ.events.find? (fun x => x.id == eid && !x.deleted && x.status == "published")
        = some ev)
    (h2 : now < ev.start_date)
    (h3 : fetchRows σ [tt.id] eid = [(tt, sc)])
    (h4 : tt.is_active = true)
    (h5 : saleNotStarted now tt = false)
    (h6 : tt.sale_end_date = some e)
    (h7 : e < now) :
    purchase σ now userId
        { eventId := eid, tickets := [{ ticketTypeId := tt.id, quantity := q }],
          customerInfo := ci } idBase rng faults
      = .error (.saleEnded tt.name) := by
  have hchk : checkLine now tt sc q = .error (.saleEnded tt.name) := by
    unfold checkLine saleHasEnded
    rw [h4, h6, h5]
    simp [h7]
  have hval : validateOrders now [(tt, sc)] [{ ticketTypeId := tt.id, quantity := q }] 0
      = .error (.saleEnded tt.name) := by
    simp [validateOrders, List.find?, hchk]
  unfold purchase purchasePlan
  simp only [List.map_cons, List.map_nil, h1, h3]
  rw [if_neg (not_le.mpr h2)]
  simp [hval]

/-- Witness for C8's amended statement: the fixture with sale_end = 10 in
the past. -/
theorem c8_witness :
    purchase storeEnded 50 7
        { eventId := 1, tickets := [{ ticketTypeId := ttEnded.id, quantity := 1 }],
          customerInfo := ciA } 100 rngA noFaults
      = .error (.saleEnded ttEnded.name) :=
  c8_sale_ended_before_inventory storeEnded 50 7 100 1 rngA ciA noFaults ttEnded 0 1 evA 10
    (by decide) (by decide) (by decide) rfl rfl rfl (by decide)

/-- Counterexample to C8 as stated: a type whose `sale_end` is set and past
and which is active, inside a purchasable event, for which a purchase
attempt nevertheless does not return `SaleEnded` — the `sale_start` check
fires first when the window is misconfigured. -/
theorem c8_counterexample :
    ttMis.sale_end_date = some 10 ∧ (10 : Int) < 50 ∧ ttMis.is_active = true ∧
    purchase storeMis 50 7 reqOne 100 rngA noFaults = .error (.notYetOnSale "VIP") ∧
    ∀ s, purchase storeMis 50 7 reqOne 100 rngA noFaults ≠ .error (.saleEnded s) := by
  refine ⟨rfl, by decide, rfl, by decide, ?_⟩
  intro s h
  rw [show purchase storeMis 50 7 reqOne 100 rngA noFaults
      = .error (.notYetOnSale "VIP") by decide] at h
  simp at h

/-- C9: with every other admissibility condition satisfied and enough
inventory for `max_purchase` units, a single-line request of exactly
`max_per_order` passes the per-order limit check and the purchase succeeds,
while any request of more than `max_per_order` units (in particular
`max_per_order + 1`) is rejected with `LimitExceeded`. -/
theorem c9_limit_boundary
    (σ : Store) (now : Int) (userId idBase eid : Nat) (rng : Nat → Fin 36)
    (ci : CustomerInfo) (faults : Nat → Bool) (tt : TicketType) (sc q : Nat)
    (ev : Event)
    (h1 : σ.events.find? (fun x => x.id == eid && !x.deleted && x.status == "published")
        = some ev)
    (h2 : now < ev.start_date)
    (h3 : fetchRows σ [tt.id] eid = [(tt, sc)])
    (h4 : tt.is_active = true)
    (h5 : saleNotStarted now tt = false)
    (h6 : saleHasEnded now tt = false)
    (h7 : (sc : Int) + (tt.max_per_order : Int) ≤ (tt.quantity : Int))
    (hq : tt.max_per_order < q) :
    (purchase σ now userId
        { eventId := eid, tickets := [{ ticketTypeId := tt.id, quantity := tt.max_per_order }],
          customerInfo := ci } idBase rng noFaults).isOk = true ∧
    purchase σ now userId
        { eventId := eid,
          tickets := [{ ticketTypeId := tt.id, quantity := q }],
          customerInfo := ci } idBase rng faults
      = .error (.limitExceeded tt.name tt.max_per_order) := by
  constructor
  · have hchk : checkLine now tt sc tt.max_per_order = .ok () := by
      unfold checkLine
      rw [h4, h5, h6]
      have hmax : ¬ (tt.max_per_order < tt.max_per_order) := lt_irrefl _
      have hinv : ¬ ((tt.quantity : Int) - (sc : Int) < (tt.max_per_order : Int)) := by omega
      simp [hmax, hinv]
    have hval : validateOrders now [(tt, sc)]
        [{ ticketTypeId := tt.id, quantity := tt.max_per_order }] 0
        = .ok (0 + tt.price * (tt.max_per_order : ℚ)) := by
      simp [validateOrders, List.find?, hchk]
    unfold purchase purchasePlan
    simp only [List.map_cons, List.map_nil, h1, h3]
    rw [if_neg (not_le.mpr h2)]
    rw [if_neg (show ¬ (([(tt, sc)] : List (TicketType × Nat)).length
      ≠ [tt.id].length) by simp)]
    simp only [hval]
    rw [applyWrites_noFaults]
    rfl
  · have hchk : checkLine now tt sc q
        = .error (.limitExceeded tt.name tt.max_per_order) := by
      unfold checkLine
      rw [h4, h5, h6]
      simp [hq]
    have hval : validateOrders now [(tt, sc)]
        [{ ticketTypeId := tt.id, quantity := q }] 0
        = .error (.limitExceeded tt.name tt.max_per_order) := by
      simp [validateOrders, List.find?, hchk]
    unfold purchase purchasePlan
    simp only [List.map_cons, List.map_nil, h1, h3]
    rw [if_neg (not_le.mpr h2)]
    simp [hval]

/-- Witness for C9 at the concrete store: limit 3, capacity 5, nothing yet
sold — 3 units succeed, 4 units give `LimitExceeded "GA" 3`. -/
theorem c9_witness :
    (purchase storeGA 50 7
        { eventId := 1, tickets := [{ ticketTypeId := ttGA.id, quantity := ttGA.max_per_order }],
          customerInfo := ciA } 100 rngA noFaults).isOk = true ∧
    purchase storeGA 50 7
        { eventId := 1,
          tickets := [{ ticketTypeId := ttGA.id, quantity := ttGA.max_per_order + 1 }],
          customerInfo := ciA } 100 rngA noFaults
      = .error (.limitExceeded ttGA.name ttGA.max_per_order) :=
  c9_limit_boundary storeGA 50 7 100 1 rngA ciA noFaults ttGA 0 (ttGA.max_per_order + 1) evA
    (by decide) (by decide) (by decide) rfl rfl rfl (by decide) (Nat.lt_succ_self _)

/-- C10: a request naming the same ticket type in two or more line items is
rejected as a whole — the distinct fetched rows cannot match the id list's
length, so the route reports the ticket types as not found — and the store
is unchanged (no order or ticket row is created). -/
theorem c10_duplicate_ids_rejected
    (σ : Store) (now : Int) (userId : Nat) (req : PurchaseRequest)
    (idBase : Nat) (rng : Nat → Fin 36) (faults : Nat → Bool) (ev : Event)
    (hwf : (σ.ticket_types.map TicketType.id).Nodup)
    (h1 : σ.events.find?
        (fun x => x.id == req.eventId && !x.deleted && x.status == "published") = some ev)
    (h2 : now < ev.start_date)
    (hdup : ¬ (req.tickets.map (fun o => o.ticketTypeId)).Nodup) :
    runPurchase σ now userId req idBase rng faults = (σ, .error .ticketTypesNotFound) := by
  have hne : (fetchRows σ (req.tickets.map (fun o => o.ticketTypeId)) req.eventId).length
      ≠ (req.tickets.map (fun o => o.ticketTypeId)).length :=
    fun he => hdup (ids_nodup_of_length_eq hwf he)
  unfold runPurchase purchase purchasePlan
  simp only [h1]
  rw [if_neg (not_le.mpr h2), if_pos hne]

/-- Witness for C10: the duplicate request against the concrete store. -/
theorem c10_witness :
    runPurchase storeGA 50 7 reqDup 100 rngA noFaults
      = (storeGA, .error .ticketTypesNotFound) :=
  c10_duplicate_ids_rejected storeGA 50 7 reqDup 100 rngA noFaults evA
    (by decide) (by decide) (by decide) (by decide)

end Ticketing
